import Mathlib

/-!
Verification of the dbnd Airflow Monitor synchronization core against its
natural-language specification.

The development shallowly embeds the Python source:
 - `airflow_monitor/common/airflow_data.py` (watermark and fetch-envelope
   (de)serialization) over a model of dynamically typed Python values;
 - `airflow_monitor/shared/base_component.py` (`refresh_config`, `sync_once`);
 - `dbnd/utils/api_client.py` (`ApiClient.is_ready`);
 - the per-source sync cycle of spec sections 4.1 and 8, whose concrete
   implementation is not part of the given sources and is therefore modelled
   from the spec where the doc comment of a definition says so.
-/

/-- A dynamically typed Python value, as far as the embedded code needs:
`None`, integers, strings, booleans, lists and string-keyed dicts. -/
inductive PyVal where
  | none
  | int (n : Int)
  | str (s : String)
  | bool (b : Bool)
  | list (xs : List PyVal)
  | dict (entries : List (String × PyVal))

/-- Python `dict.get(key)`: the value bound to `key`, or `None` when the key
is missing.  Dicts are modelled as association lists with unique keys; lookup
takes the first binding. -/
def pyGet : List (String × PyVal) → String → PyVal
  | [], _ => PyVal.none
  | (k, v) :: rest, key => if k = key then v else pyGet rest key

/-- `LastSeenValues` (airflow_data.py): the watermark record, two fields each
holding an `Optional[int]` in well-typed use, but dynamically any value. -/
structure LastSeenValues where
  last_seen_dag_run_id : PyVal
  last_seen_log_id : PyVal

/-- `LastSeenValues.as_dict` (airflow_data.py lines 9-13). -/
def LastSeenValues.as_dict (v : LastSeenValues) : List (String × PyVal) :=
  [("last_seen_dag_run_id", v.last_seen_dag_run_id),
   ("last_seen_log_id", v.last_seen_log_id)]

/-- `LastSeenValues.from_dict` (airflow_data.py lines 15-20). -/
def LastSeenValues.from_dict (data : List (String × PyVal)) : LastSeenValues :=
  { last_seen_dag_run_id := pyGet data "last_seen_dag_run_id",
    last_seen_log_id := pyGet data "last_seen_log_id" }

/-- `AirflowDagRun` (airflow_data.py lines 23-32); `events` defaults to
`None`. -/
structure AirflowDagRun where
  id : PyVal
  dag_id : PyVal
  execution_date : PyVal
  state : PyVal
  is_paused : PyVal
  has_updated_task_instances : PyVal
  max_log_id : PyVal
  events : PyVal := PyVal.none

/-- `AirflowDagRunsResponse` (airflow_data.py lines 35-39). -/
structure AirflowDagRunsResponse where
  dag_runs : List AirflowDagRun
  last_seen_dag_run_id : PyVal
  last_seen_log_id : PyVal

/-- The `AirflowDagRun(...)` constructor call inside the comprehension of
`AirflowDagRunsResponse.from_dict` (airflow_data.py lines 45-53): every field
except `events` is read with `dr.get`; `events` is left at its default
`None`. -/
def dagRunOfDict (d : List (String × PyVal)) : AirflowDagRun :=
  { id := pyGet d "id",
    dag_id := pyGet d "dag_id",
    execution_date := pyGet d "execution_date",
    state := pyGet d "state",
    is_paused := pyGet d "is_paused",
    has_updated_task_instances := pyGet d "has_updated_task_instances",
    max_log_id := pyGet d "max_log_id",
    events := PyVal.none }

/-- The list comprehension `[AirflowDagRun(...) for dr in ...]`: succeeds on a
list of dicts, fails (TypeError / AttributeError at `dr.get`) as soon as an
element is not a dict.  `Option.none` models the raised exception. -/
def parseDagRuns : List PyVal → Option (List AirflowDagRun)
  | [] => some []
  | dr :: rest =>
    match dr with
    | PyVal.dict d => (parseDagRuns rest).map fun tail => dagRunOfDict d :: tail
    | _ => Option.none

/-- Python iteration `for dr in x`: a list yields its elements, a string its
one-character strings, a dict its keys; `None`, integers and booleans are not
iterable (TypeError), modelled by `Option.none`. -/
def pyIter : PyVal → Option (List PyVal)
  | PyVal.list xs => some xs
  | PyVal.str s => some (s.data.map fun c => PyVal.str (String.mk [c]))
  | PyVal.dict es => some (es.map fun kv => PyVal.str kv.1)
  | _ => Option.none

/-- `AirflowDagRunsResponse.from_dict` (airflow_data.py lines 41-58).
`for dr in data.get("new_dag_runs")` iterates the value bound to
`"new_dag_runs"`; when the key is missing or bound to `None` (or any other
non-iterable), the iteration raises TypeError; a string or dict is iterated —
zero times when empty — and any element it yields is a string, on which
`dr.get` raises AttributeError inside `parseDagRuns`. -/
def AirflowDagRunsResponse.from_dict (data : List (String × PyVal)) :
    Option AirflowDagRunsResponse :=
  match pyIter (pyGet data "new_dag_runs") with
  | some elems =>
    (parseDagRuns elems).map fun runs =>
      { dag_runs := runs,
        last_seen_dag_run_id := pyGet data "last_seen_dag_run_id",
        last_seen_log_id := pyGet data "last_seen_log_id" }
  | Option.none => Option.none

theorem pyGet_eq_lookup (d : List (String × PyVal)) (k : String) :
    pyGet d k = (List.lookup k d).getD PyVal.none := by
  induction d with
  | nil => rfl
  | cons p rest ih =>
    obtain ⟨k1, v1⟩ := p
    by_cases h : k1 = k
    · subst h; simp [pyGet, List.lookup]
    · have h2 : (k == k1) = false := beq_eq_false_iff_ne.mpr fun hk => h hk.symm
      simp [pyGet, List.lookup, h, h2, ih]

/-- C4: watermark serialization round-trip — for `a` and `b` each an integer
or `None`, `LastSeenValues.from_dict (LastSeenValues(a, b).as_dict())` equals
`LastSeenValues(a, b)`. -/
theorem lastSeenValues_roundtrip (a b : PyVal)
    (ha : a = PyVal.none ∨ ∃ n, a = PyVal.int n)
    (hb : b = PyVal.none ∨ ∃ n, b = PyVal.int n) :
    LastSeenValues.from_dict (LastSeenValues.as_dict ⟨a, b⟩) = ⟨a, b⟩ := by
  simp [LastSeenValues.from_dict, LastSeenValues.as_dict, pyGet]

theorem lastSeenValues_roundtrip_witness :
    LastSeenValues.from_dict (LastSeenValues.as_dict ⟨PyVal.int 3, PyVal.none⟩) =
      ⟨PyVal.int 3, PyVal.none⟩ :=
  lastSeenValues_roundtrip (PyVal.int 3) PyVal.none (Or.inr ⟨3, rfl⟩) (Or.inl rfl)

/-- C5: `LastSeenValues.from_dict` binds each field to the value stored under
its key when the key is present, and to `None` — never `0` — when the key is
missing; keys other than the two watermark keys are ignored. -/
theorem lastSeenValues_from_dict_fields (d : List (String × PyVal)) :
    (∀ v, List.lookup "last_seen_dag_run_id" d = some v →
       (LastSeenValues.from_dict d).last_seen_dag_run_id = v)
    ∧ (List.lookup "last_seen_dag_run_id" d = Option.none →
       (LastSeenValues.from_dict d).last_seen_dag_run_id = PyVal.none
       ∧ (LastSeenValues.from_dict d).last_seen_dag_run_id ≠ PyVal.int 0)
    ∧ (∀ v, List.lookup "last_seen_log_id" d = some v →
       (LastSeenValues.from_dict d).last_seen_log_id = v)
    ∧ (List.lookup "last_seen_log_id" d = Option.none →
       (LastSeenValues.from_dict d).last_seen_log_id = PyVal.none
       ∧ (LastSeenValues.from_dict d).last_seen_log_id ≠ PyVal.int 0)
    ∧ (∀ k v, k ≠ "last_seen_dag_run_id" → k ≠ "last_seen_log_id" →
       LastSeenValues.from_dict ((k, v) :: d) = LastSeenValues.from_dict d) := by
  refine ⟨?_, ?_, ?_, ?_, ?_⟩
  · intro v hv
    simp [LastSeenValues.from_dict, pyGet_eq_lookup, hv]
  · intro hv
    refine ⟨by simp [LastSeenValues.from_dict, pyGet_eq_lookup, hv], ?_⟩
    simp only [LastSeenValues.from_dict, pyGet_eq_lookup, hv, Option.getD_none]
    intro h
    exact PyVal.noConfusion h
  · intro v hv
    simp [LastSeenValues.from_dict, pyGet_eq_lookup, hv]
  · intro hv
    refine ⟨by simp [LastSeenValues.from_dict, pyGet_eq_lookup, hv], ?_⟩
    simp only [LastSeenValues.from_dict, pyGet_eq_lookup, hv, Option.getD_none]
    intro h
    exact PyVal.noConfusion h
  · intro k v hk1 hk2
    simp [LastSeenValues.from_dict, pyGet, hk1, hk2]

theorem lastSeenValues_from_dict_fields_witness :
    (LastSeenValues.from_dict [("x", PyVal.int 5)]).last_seen_dag_run_id =
      PyVal.none :=
  ((lastSeenValues_from_dict_fields [("x", PyVal.int 5)]).2.1 rfl).1

/-- C9 counterexample: an envelope binding `"new_dag_runs"` to an empty dict
— not a sequence, not a list — parses successfully with an empty `dag_runs`
list: Python iterates the empty dict zero times, so totality of the parse does
not require a sequence. -/
theorem from_dict_empty_dict_counterexample :
    AirflowDagRunsResponse.from_dict [("new_dag_runs", PyVal.dict [])] =
      some { dag_runs := [], last_seen_dag_run_id := PyVal.none,
             last_seen_log_id := PyVal.none }
    ∧ pyGet [("new_dag_runs", PyVal.dict [])] "new_dag_runs" =
        PyVal.dict [] := ⟨rfl, rfl⟩

/-- C9 (amended): for every mapping that lacks the `"new_dag_runs"` key or
binds it to `None`, `AirflowDagRunsResponse.from_dict` fails (iterating `None`
raises) rather than returning a response with an empty `dag_runs` list; but
totality of the parse requires only an iterable, not a sequence: an empty
string or an empty dict is iterated zero times and the parse succeeds with
`dag_runs = []`, and every successful parse has the key bound to a list, the
empty string, or the empty dict. -/
theorem airflowDagRunsResponse_from_dict_totality (data : List (String × PyVal)) :
    (pyGet data "new_dag_runs" = PyVal.none →
       AirflowDagRunsResponse.from_dict data = Option.none)
    ∧ (List.lookup "new_dag_runs" data = Option.none →
       AirflowDagRunsResponse.from_dict data = Option.none)
    ∧ (pyGet data "new_dag_runs" = PyVal.str "" →
       AirflowDagRunsResponse.from_dict data =
         some { dag_runs := [],
                last_seen_dag_run_id := pyGet data "last_seen_dag_run_id",
                last_seen_log_id := pyGet data "last_seen_log_id" })
    ∧ (pyGet data "new_dag_runs" = PyVal.dict [] →
       AirflowDagRunsResponse.from_dict data =
         some { dag_runs := [],
                last_seen_dag_run_id := pyGet data "last_seen_dag_run_id",
                last_seen_log_id := pyGet data "last_seen_log_id" })
    ∧ (∀ r, AirflowDagRunsResponse.from_dict data = some r →
       pyGet data "new_dag_runs" = PyVal.str ""
       ∨ pyGet data "new_dag_runs" = PyVal.dict []
       ∨ ∃ drs, pyGet data "new_dag_runs" = PyVal.list drs) := by
  refine ⟨?_, ?_, ?_, ?_, ?_⟩
  · intro h
    simp [AirflowDagRunsResponse.from_dict, h, pyIter]
  · intro h
    have hg : pyGet data "new_dag_runs" = PyVal.none := by
      simp [pyGet_eq_lookup, h]
    simp [AirflowDagRunsResponse.from_dict, hg, pyIter]
  · intro h
    simp [AirflowDagRunsResponse.from_dict, h, pyIter, parseDagRuns]
  · intro h
    simp [AirflowDagRunsResponse.from_dict, h, pyIter, parseDagRuns]
  · intro r hr
    unfold AirflowDagRunsResponse.from_dict at hr
    cases hg : pyGet data "new_dag_runs" with
    | list drs => exact Or.inr (Or.inr ⟨drs, rfl⟩)
    | none => rw [hg] at hr; exact Option.noConfusion hr
    | int n => rw [hg] at hr; exact Option.noConfusion hr
    | bool b => rw [hg] at hr; exact Option.noConfusion hr
    | str s =>
      rw [hg] at hr
      obtain ⟨l⟩ := s
      cases l with
      | nil => exact Or.inl rfl
      | cons c cs =>
        exfalso
        simp [pyIter, parseDagRuns] at hr
    | dict es =>
      rw [hg] at hr
      cases es with
      | nil => exact Or.inr (Or.inl rfl)
      | cons kv rest =>
        exfalso
        simp [pyIter, parseDagRuns] at hr

theorem airflowDagRunsResponse_from_dict_totality_witness :
    AirflowDagRunsResponse.from_dict
      [("last_seen_dag_run_id", PyVal.int 1)] = Option.none :=
  (airflowDagRunsResponse_from_dict_totality
    [("last_seen_dag_run_id", PyVal.int 1)]).1 rfl

/-- A dag-run mapping carrying all documented keys, including `"events"`. -/
def dagRunDictWithEvents : List (String × PyVal) :=
  [("id", PyVal.int 11), ("dag_id", PyVal.str "dag"),
   ("execution_date", PyVal.str "2024-01-01T00:00:00"),
   ("state", PyVal.str "success"), ("is_paused", PyVal.bool false),
   ("has_updated_task_instances", PyVal.bool true),
   ("max_log_id", PyVal.int 105), ("events", PyVal.str "evt")]

/-- A fetch envelope whose single dag-run element carries an `"events"` key. -/
def envelopeWithEvents : List (String × PyVal) :=
  [("new_dag_runs", PyVal.list [PyVal.dict dagRunDictWithEvents]),
   ("last_seen_dag_run_id", PyVal.int 11),
   ("last_seen_log_id", PyVal.int 105)]

/-- C6 counterexample: on an envelope whose dag-run element binds `"events"`
to the string `"evt"`, `AirflowDagRunsResponse.from_dict` yields a dag run
whose `events` field is `None`, not the value in the element — the parser never
reads the `"events"` key. -/
theorem from_dict_events_counterexample :
    (AirflowDagRunsResponse.from_dict envelopeWithEvents).map
        (fun r => r.dag_runs.map AirflowDagRun.events) = some [PyVal.none]
    ∧ pyGet dagRunDictWithEvents "events" = PyVal.str "evt"
    ∧ PyVal.none ≠ PyVal.str "evt" := by
  refine ⟨rfl, rfl, fun h => PyVal.noConfusion h⟩

/-- C6 (amended): for every envelope whose `"new_dag_runs"` key holds a list
of dag-run mappings, `AirflowDagRunsResponse.from_dict` returns one
`AirflowDagRun` per element whose `id`, `dag_id`, `execution_date`, `state`,
`is_paused`, `has_updated_task_instances` and `max_log_id` fields are taken
from the corresponding keys of that element, whose `events` field is always
`None` (any `"events"` key of the element is ignored), and whose
`last_seen_dag_run_id` / `last_seen_log_id` equal the top-level values. -/
theorem airflowDagRunsResponse_from_dict_parses (data : List (String × PyVal))
    (ds : List (List (String × PyVal)))
    (h : pyGet data "new_dag_runs" = PyVal.list (ds.map PyVal.dict)) :
    AirflowDagRunsResponse.from_dict data =
      some { dag_runs := ds.map dagRunOfDict,
             last_seen_dag_run_id := pyGet data "last_seen_dag_run_id",
             last_seen_log_id := pyGet data "last_seen_log_id" } := by
  have hp : ∀ l : List (List (String × PyVal)),
      parseDagRuns (l.map PyVal.dict) = some (l.map dagRunOfDict) := by
    intro l
    induction l with
    | nil => rfl
    | cons x xs ih => simp [parseDagRuns, ih]
  unfold AirflowDagRunsResponse.from_dict
  rw [h]
  simp [pyIter, hp]

theorem airflowDagRunsResponse_from_dict_parses_witness :
    AirflowDagRunsResponse.from_dict envelopeWithEvents =
      some { dag_runs := [dagRunOfDict dagRunDictWithEvents],
             last_seen_dag_run_id := PyVal.int 11,
             last_seen_log_id := PyVal.int 105 } :=
  airflowDagRunsResponse_from_dict_parses envelopeWithEvents
    [dagRunDictWithEvents] rfl

/-- Modelled from the spec: the typed watermark of section 3 — the concrete
tracking-service storage of `last_seen_dag_run_id` / `last_seen_log_id` is not
among the given sources.  `Option.none` models an absent (never synced)
field. -/
structure Watermark where
  last_seen_dag_run_id : Option Int
  last_seen_log_id : Option Int
deriving DecidableEq

/-- Modelled from the spec: a dag run as the cycle model needs it (section 3);
only the keys driving the cycle are kept. -/
structure DagRunRec where
  id : Int
  has_updated_task_instances : Bool
  max_log_id : Int
deriving DecidableEq

/-- Modelled from the spec: the fetch result envelope of section 3 — an
ordered sequence of dag runs plus the fetcher-reported candidate next
watermark. -/
structure DagRunsResponseRec where
  dag_runs : List DagRunRec
  last_seen_dag_run_id : Option Int
  last_seen_log_id : Option Int
deriving DecidableEq

/-- Outcome of one sync cycle as the error reporter records it. -/
inductive CycleOutcome where
  | succeeded
  | failed
deriving DecidableEq

/-- Modelled from the spec: the durable per-source state held by the Tracking
Service — the stored watermark and the sequence of persisted payloads (most
recent first); the concrete tracking-service implementation is not among the
given sources. -/
structure TrackingState where
  watermark : Watermark
  saved_payloads : List (List DagRunRec)
deriving DecidableEq

/-- Modelled from the spec: one execution of the per-cycle sync algorithm of
section 4.1, whose concrete `_sync_once` implementation is not among the given
sources.  `fetch` is the behaviour of the Data Fetcher this cycle (`Option.none`
models a raised exception); `persistOk` is whether the Tracking Service write
is acknowledged.  Steps: read the watermark, fetch; an empty response ends the
cycle with no writes; otherwise the payload is persisted and, only on
acknowledgement, the fetcher-proposed watermark is written — the code writes
it without comparing it to the stored one (spec section 9, open question). -/
def syncCycle (fetch : Watermark → Option DagRunsResponseRec) (persistOk : Bool)
    (st : TrackingState) : CycleOutcome × TrackingState :=
  match fetch st.watermark with
  | Option.none => (CycleOutcome.failed, st)
  | some resp =>
    if resp.dag_runs.isEmpty then
      (CycleOutcome.succeeded, st)
    else if persistOk then
      (CycleOutcome.succeeded,
        { watermark := { last_seen_dag_run_id := resp.last_seen_dag_run_id,
                         last_seen_log_id := resp.last_seen_log_id },
          saved_payloads := resp.dag_runs :: st.saved_payloads })
    else
      (CycleOutcome.failed, st)

/-- `n` consecutive cycles; `persist` gives, per cycle, whether the Tracking
Service write is acknowledged. -/
def syncMany (fetch : Watermark → Option DagRunsResponseRec)
    (persist : Nat → Bool) : Nat → TrackingState → TrackingState
  | 0, st => st
  | n + 1, st => syncMany fetch persist n (syncCycle fetch (persist n) st).2

/-- Field order on watermark components: an absent field may become anything;
a present field must stay present and not decrease. -/
def wmFieldLE : Option Int → Option Int → Bool
  | Option.none, _ => true
  | some _, Option.none => false
  | some a, some b => decide (a ≤ b)

/-- Watermark order: both fields related by `wmFieldLE`. -/
def wmLE (u v : Watermark) : Bool :=
  wmFieldLE u.last_seen_dag_run_id v.last_seen_dag_run_id
    && wmFieldLE u.last_seen_log_id v.last_seen_log_id

theorem wmFieldLE_refl (a : Option Int) : wmFieldLE a a = true := by
  cases a with
  | none => rfl
  | some x => simp [wmFieldLE]

theorem wmFieldLE_trans {a b c : Option Int} (h1 : wmFieldLE a b = true)
    (h2 : wmFieldLE b c = true) : wmFieldLE a c = true := by
  cases a with
  | none => rfl
  | some x =>
    cases b with
    | none => exact absurd h1 (by simp [wmFieldLE])
    | some y =>
      cases c with
      | none => exact absurd h2 (by simp [wmFieldLE])
      | some z =>
        simp only [wmFieldLE, decide_eq_true_eq] at h1 h2 ⊢
        exact le_trans h1 h2

theorem wmLE_refl (u : Watermark) : wmLE u u = true := by
  simp [wmLE, wmFieldLE_refl]

theorem wmLE_trans {u v w : Watermark} (h1 : wmLE u v = true)
    (h2 : wmLE v w = true) : wmLE u w = true := by
  simp only [wmLE, Bool.and_eq_true] at h1 h2 ⊢
  exact ⟨wmFieldLE_trans h1.1 h2.1, wmFieldLE_trans h1.2 h2.2⟩

/-- A fetcher that always reports one new dag run and proposes the advanced
watermark `(11, 105)` (the concrete scenario of spec section 8). -/
def fetchAdvance : Watermark → Option DagRunsResponseRec :=
  fun _ => some
    { dag_runs := [{ id := 11, has_updated_task_instances := true,
                     max_log_id := 105 }],
      last_seen_dag_run_id := some 11, last_seen_log_id := some 105 }

/-- A tracking state holding the stored watermark `(10, 100)` and no persisted
payloads yet. -/
def st10 : TrackingState :=
  { watermark := { last_seen_dag_run_id := some 10,
                   last_seen_log_id := some 100 },
    saved_payloads := [] }

/-- C2: in any cycle whose Tracking Service write fails, the stored watermark
is unchanged — the watermark read at the start of the next cycle equals the
one read at the start of the failed cycle — and whenever a cycle changes the
watermark, the write was acknowledged and a payload was persisted first. -/
theorem no_advance_on_persist_failure
    (fetch : Watermark → Option DagRunsResponseRec) (persistOk : Bool)
    (st : TrackingState) :
    (syncCycle fetch false st).2.watermark = st.watermark
    ∧ ((syncCycle fetch persistOk st).2.watermark ≠ st.watermark →
       persistOk = true
       ∧ (syncCycle fetch persistOk st).2.saved_payloads.length =
           st.saved_payloads.length + 1) := by
  constructor
  · cases hf : fetch st.watermark with
    | none => simp [syncCycle, hf]
    | some resp =>
      cases he : resp.dag_runs.isEmpty with
      | true => simp [syncCycle, hf, he]
      | false => simp [syncCycle, hf, he]
  · intro hw
    cases hf : fetch st.watermark with
    | none => simp [syncCycle, hf] at hw
    | some resp =>
      cases he : resp.dag_runs.isEmpty with
      | true => simp [syncCycle, hf, he] at hw
      | false =>
        cases hp : persistOk with
        | false => simp [syncCycle, hf, he, hp] at hw
        | true => simp [syncCycle, hf, he, hp]

theorem no_advance_on_persist_failure_witness :
    (syncCycle fetchAdvance false st10).2.watermark = st10.watermark
    ∧ (syncCycle fetchAdvance true st10).2.saved_payloads.length =
        st10.saved_payloads.length + 1 :=
  ⟨(no_advance_on_persist_failure fetchAdvance false st10).1,
   ((no_advance_on_persist_failure fetchAdvance true st10).2 (by decide)).2⟩

/-- A fetcher that always returns an empty response. -/
def fetchEmpty : Watermark → Option DagRunsResponseRec :=
  fun _ => some { dag_runs := [], last_seen_dag_run_id := Option.none,
                  last_seen_log_id := Option.none }

/-- C7: if the fetcher always returns an empty response, any number of
consecutive cycles performs no Tracking Service writes and leaves the stored
watermark unchanged — the whole tracking state is untouched. -/
theorem empty_cycle_idempotent
    (fetch : Watermark → Option DagRunsResponseRec)
    (hne : ∀ w, fetch w ≠ Option.none)
    (hem : ∀ w r, fetch w = some r → r.dag_runs = [])
    (persist : Nat → Bool) (n : Nat) (st : TrackingState) :
    syncMany fetch persist n st = st := by
  induction n generalizing st with
  | zero => rfl
  | succ n ih =>
    have hc : (syncCycle fetch (persist n) st).2 = st := by
      cases hf : fetch st.watermark with
      | none => exact absurd hf (hne st.watermark)
      | some r =>
        have hr : r.dag_runs = [] := hem st.watermark r hf
        simp [syncCycle, hf, hr]
    simp only [syncMany, hc]
    exact ih st

theorem empty_cycle_idempotent_witness :
    syncMany fetchEmpty (fun _ => true) 3 st10 = st10 :=
  empty_cycle_idempotent fetchEmpty
    (fun w => by simp [fetchEmpty])
    (fun w r hr => by
      simp only [fetchEmpty] at hr
      injection hr with h
      rw [← h])
    (fun _ => true) 3 st10

/-- A fetcher that reports one dag run but proposes the watermark `(5, 50)`,
lower than the stored `(10, 100)` — the rolled-back proposal of the open
question in spec section 9. -/
def fetchRollback : Watermark → Option DagRunsResponseRec :=
  fun _ => some
    { dag_runs := [{ id := 5, has_updated_task_instances := false,
                     max_log_id := 50 }],
      last_seen_dag_run_id := some 5, last_seen_log_id := some 50 }

/-- C1 counterexample: starting from stored watermark `(10, 100)`, a cycle
with a fetcher proposing `(5, 50)` and an acknowledged write succeeds and
stores the strictly lower watermark `(5, 50)`: the cycle model writes the
fetcher-proposed values without comparing them to the stored ones, so a
successful cycle can lower both fields. -/
theorem watermark_monotonicity_counterexample :
    (syncCycle fetchRollback true st10).1 = CycleOutcome.succeeded
    ∧ (syncCycle fetchRollback true st10).2.watermark =
        { last_seen_dag_run_id := some 5, last_seen_log_id := some 50 }
    ∧ wmLE st10.watermark (syncCycle fetchRollback true st10).2.watermark =
        false := by
  refine ⟨rfl, rfl, by decide⟩

/-- C1 (amended): provided every nonempty fetcher response proposes a
watermark that is, field by field, at least the watermark it was fetched with,
the stored watermark fields are each either absent or non-decreasing across
any sequence of cycles. -/
theorem watermark_monotonic_of_fetcher_monotone
    (fetch : Watermark → Option DagRunsResponseRec)
    (hmono : ∀ w r, fetch w = some r → r.dag_runs ≠ [] →
       wmLE w { last_seen_dag_run_id := r.last_seen_dag_run_id,
                last_seen_log_id := r.last_seen_log_id } = true)
    (persist : Nat → Bool) (n : Nat) (st : TrackingState) :
    wmLE st.watermark (syncMany fetch persist n st).watermark = true := by
  induction n generalizing st with
  | zero => exact wmLE_refl st.watermark
  | succ n ih =>
    have hstep :
        wmLE st.watermark (syncCycle fetch (persist n) st).2.watermark = true := by
      cases hf : fetch st.watermark with
      | none => simp [syncCycle, hf, wmLE_refl]
      | some r =>
        cases he : r.dag_runs.isEmpty with
        | true => simp [syncCycle, hf, he, wmLE_refl]
        | false =>
          have hne : r.dag_runs ≠ [] := by
            intro h0
            rw [h0] at he
            exact absurd he (by decide)
          have hm := hmono st.watermark r hf hne
          cases hp : persist n with
          | false => simp [syncCycle, hf, he, hp, wmLE_refl]
          | true =>
            simp only [syncCycle, hf, he, hp, Bool.false_eq_true, if_false,
              if_true]
            exact hm
    simp only [syncMany]
    exact wmLE_trans hstep (ih (syncCycle fetch (persist n) st).2)

/-- A fetcher that reports one dag run and proposes exactly the watermark it
was handed. -/
def fetchSame : Watermark → Option DagRunsResponseRec :=
  fun w => some
    { dag_runs := [{ id := 1, has_updated_task_instances := false,
                     max_log_id := 1 }],
      last_seen_dag_run_id := w.last_seen_dag_run_id,
      last_seen_log_id := w.last_seen_log_id }

theorem watermark_monotonic_of_fetcher_monotone_witness :
    wmLE st10.watermark
      (syncMany fetchSame (fun _ => true) 2 st10).watermark = true :=
  watermark_monotonic_of_fetcher_monotone fetchSame
    (fun w r hr hne => by
      simp only [fetchSame] at hr
      injection hr with h
      rw [← h]
      exact wmLE_refl w)
    (fun _ => true) 2 st10

/-- A Python exception as the error boundary of a cycle classifies it (spec
section 7). -/
inductive PyExn where
  | notImplementedError
  | transientIOErr
  | authErr
  | malformedResponseErr
  | other (msg : String)
deriving DecidableEq

/-- Outcome of running a Python callable: a normal return or a raised
exception. -/
inductive PyOutcome (α : Type) where
  | ok (a : α)
  | exn (e : PyExn)
deriving DecidableEq

/-- Modelled from the spec: `capture_component_exception` (error_handler
module, not among the given sources) — wraps a cycle, records any raised
exception, and never re-raises (spec sections 4.3 and 7).  Returns the
boundary outcome together with the failures it recorded. -/
def capture_component_exception (body : PyOutcome Unit) :
    PyOutcome Unit × List PyExn :=
  match body with
  | PyOutcome.ok a => (PyOutcome.ok a, [])
  | PyOutcome.exn e => (PyOutcome.ok (), [e])

/-- `BaseComponent.sync_once` (base_component.py lines 49-53): runs the
overriding `_sync_once` under `new_tracing_id()` and
`capture_component_exception`; `body` is the behaviour of `_sync_once` this cycle
(the abstract base raises `NotImplementedError`).  The tracing-id context
manager only attaches a correlation id and does not alter the outcome. -/
def BaseComponent.sync_once (body : PyOutcome Unit) :
    PyOutcome Unit × List PyExn :=
  capture_component_exception body

/-- C3: for every behaviour of `_sync_once` — normal return or any raised
exception — `BaseComponent.sync_once` returns normally to the caller, and a
raised exception is recorded at the cycle boundary rather than propagated. -/
theorem sync_once_never_raises (body : PyOutcome Unit) :
    (BaseComponent.sync_once body).1 = PyOutcome.ok ()
    ∧ (∀ e, body = PyOutcome.exn e →
        (BaseComponent.sync_once body).2 = [e]) := by
  constructor
  · cases body with
    | ok a => rfl
    | exn e => rfl
  · intro e he
    rw [he]
    rfl

theorem sync_once_never_raises_witness :
    (BaseComponent.sync_once (PyOutcome.exn PyExn.notImplementedError)).1 =
      PyOutcome.ok ()
    ∧ (BaseComponent.sync_once (PyOutcome.exn PyExn.notImplementedError)).2 =
      [PyExn.notImplementedError] :=
  ⟨(sync_once_never_raises (PyOutcome.exn PyExn.notImplementedError)).1,
   (sync_once_never_raises (PyOutcome.exn PyExn.notImplementedError)).2
     PyExn.notImplementedError rfl⟩

/-- Modelled from the spec: the per-source config of spec sections 3 and 6 —
`BaseServerConfig` itself is not among the given sources; only the fields the
embedded methods read are kept. -/
structure BaseServerConfig where
  uid : String
  source_name : String
  sync_interval : Int
  log_level : Option String
deriving DecidableEq

/-- Python `logging.getLevelName` on level names: the numeric level for a
known name, `Option.none` when CPython would return the `"Level %s"` fallback
string (an unknown name). -/
def getLevelName (s : String) : Option Int :=
  if s = "CRITICAL" then some 50
  else if s = "FATAL" then some 50
  else if s = "ERROR" then some 40
  else if s = "WARNING" then some 30
  else if s = "WARN" then some 30
  else if s = "INFO" then some 20
  else if s = "DEBUG" then some 10
  else if s = "NOTSET" then some 0
  else Option.none

/-- The component state `refresh_config` touches: the held config. -/
structure BaseComponentState where
  config : BaseServerConfig
deriving DecidableEq

/-- `BaseComponent.refresh_config` (base_component.py lines 41-47) as a
transition on the held config and the root logger level: assign the config;
when `log_level` is truthy (neither `None` nor empty) and its numeric level
differs from `logging.root.level`, call `logging.root.setLevel`.  The third
component carries the argument of the `ValueError` that `setLevel` raises on
an unknown level name (for such a name the Python `getLevelName` returns a
string, so the inequality test passes and `setLevel` is reached). -/
def BaseComponent.refresh_config (st : BaseComponentState) (root_level : Int)
    (config : BaseServerConfig) :
    (BaseComponentState × Int) × Option String :=
  let st' := { st with config := config }
  match config.log_level with
  | Option.none => ((st', root_level), Option.none)
  | some s =>
    if s.isEmpty then ((st', root_level), Option.none)
    else
      match getLevelName s with
      | some lvl =>
        if lvl != root_level then ((st', lvl), Option.none)
        else ((st', root_level), Option.none)
      | Option.none => ((st', root_level), some s)

/-- C8: after `refresh_config(new_config)` the held config equals `new_config`
on every path; when `log_level` is set to a known level name, the root
logger level afterwards is the numeric level of that name; when it is
unset (`None`, or empty hence falsy), the root level is untouched and nothing
is raised. -/
theorem refresh_config_contract (st : BaseComponentState) (root_level : Int)
    (config : BaseServerConfig) :
    ((BaseComponent.refresh_config st root_level config).1.1.config = config)
    ∧ (∀ s lvl, config.log_level = some s → getLevelName s = some lvl →
       (BaseComponent.refresh_config st root_level config).1.2 = lvl
       ∧ (BaseComponent.refresh_config st root_level config).2 = Option.none)
    ∧ (config.log_level = Option.none ∨ config.log_level = some "" →
       (BaseComponent.refresh_config st root_level config).1.2 = root_level
       ∧ (BaseComponent.refresh_config st root_level config).2 =
           Option.none) := by
  refine ⟨?_, ?_, ?_⟩
  · unfold BaseComponent.refresh_config
    cases config.log_level with
    | none => rfl
    | some s =>
      simp only
      split
      · rfl
      · split
        · split
          · rfl
          · rfl
        · rfl
  · intro s lvl hs hlvl
    have hne : s.isEmpty = false := by
      cases he : s.isEmpty with
      | false => rfl
      | true =>
        have hs0 : s = "" := (String.isEmpty_iff s).mp he
        rw [hs0] at hlvl
        exact Option.noConfusion (by rw [← hlvl] ; rfl : (Option.none : Option Int) = some lvl)
    unfold BaseComponent.refresh_config
    rw [hs]
    simp only [hne, Bool.false_eq_true, if_false, hlvl]
    cases hq : lvl != root_level with
    | true => simp
    | false =>
      have : lvl = root_level := bne_eq_false_iff_eq.mp hq
      simp [this]
  · intro h
    cases h with
    | inl h0 =>
      unfold BaseComponent.refresh_config
      rw [h0]
      exact ⟨rfl, rfl⟩
    | inr h0 =>
      unfold BaseComponent.refresh_config
      rw [h0]
      exact ⟨rfl, rfl⟩

/-- A config selecting the DEBUG verbosity. -/
def cfgDebug : BaseServerConfig :=
  { uid := "u1", source_name := "airflow-prod", sync_interval := 10,
    log_level := some "DEBUG" }

theorem refresh_config_contract_witness :
    (BaseComponent.refresh_config ⟨cfgDebug⟩ 20 cfgDebug).1.1.config = cfgDebug
    ∧ (BaseComponent.refresh_config ⟨cfgDebug⟩ 20 cfgDebug).1.2 = 10 :=
  ⟨(refresh_config_contract ⟨cfgDebug⟩ 20 cfgDebug).1,
   ((refresh_config_contract ⟨cfgDebug⟩ 20 cfgDebug).2.1 "DEBUG" 10
      rfl rfl).1⟩

/-- Result of one `api_request("auth/ping")` call as `is_ready` observes it:
success, `DatabandConnectionException` (raised as `api_connection_refused`),
`DatabandApiError`, or an unrelated exception. -/
inductive ApiOutcome where
  | success
  | connectionExn
  | apiErrorExn
  | otherExn
deriving DecidableEq

/-- The `ApiClient` state `is_ready` touches. -/
structure ApiClientState where
  is_auth_required : Bool
deriving DecidableEq

/-- `ApiClient.is_ready` (api_client.py lines 139-148): save
`is_auth_required`, clear it for the ping, return `True` on success and
`False` on `DatabandConnectionException` / `DatabandApiError`; any other
exception propagates (first component `Option.none`); the `finally` block
restores `is_auth_required` on every path.  `ping` is the behaviour of
`api_request("auth/ping")` as a function of the client state in effect during
the call. -/
def ApiClient.is_ready (ping : ApiClientState → ApiOutcome)
    (st : ApiClientState) : Option Bool × ApiClientState :=
  let saved := st.is_auth_required
  let during : ApiClientState := { st with is_auth_required := false }
  let result : Option Bool :=
    match ping during with
    | ApiOutcome.success => some true
    | ApiOutcome.connectionExn => some false
    | ApiOutcome.apiErrorExn => some false
    | ApiOutcome.otherExn => Option.none
  (result, { during with is_auth_required := saved })

/-- C10: `is_ready` returns `True` when the ping succeeds and `False` when it
fails with a connection or API error — those two exceptions never propagate
(only an unrelated exception does) — and on every exit path `is_auth_required`
is restored to its value from before the call. -/
theorem is_ready_exception_safe (ping : ApiClientState → ApiOutcome)
    (st : ApiClientState) :
    (ApiClient.is_ready ping st).2.is_auth_required = st.is_auth_required
    ∧ (ping { st with is_auth_required := false } = ApiOutcome.success →
       (ApiClient.is_ready ping st).1 = some true)
    ∧ (ping { st with is_auth_required := false } = ApiOutcome.connectionExn ∨
       ping { st with is_auth_required := false } = ApiOutcome.apiErrorExn →
       (ApiClient.is_ready ping st).1 = some false)
    ∧ ((ApiClient.is_ready ping st).1 = Option.none →
       ping { st with is_auth_required := false } = ApiOutcome.otherExn) := by
  refine ⟨rfl, ?_, ?_, ?_⟩
  · intro h
    simp [ApiClient.is_ready, h]
  · intro h
    rcases h with h | h <;> simp [ApiClient.is_ready, h]
  · intro h
    cases hp : ping { st with is_auth_required := false } <;>
      simp [ApiClient.is_ready, hp] at h ⊢

/-- A ping behaviour that always fails with a connection error. -/
def pingConnRefused : ApiClientState → ApiOutcome :=
  fun _ => ApiOutcome.connectionExn

theorem is_ready_exception_safe_witness :
    (ApiClient.is_ready pingConnRefused ⟨true⟩).2.is_auth_required = true
    ∧ (ApiClient.is_ready pingConnRefused ⟨true⟩).1 = some false :=
  ⟨(is_ready_exception_safe pingConnRefused ⟨true⟩).1,
   (is_ready_exception_safe pingConnRefused ⟨true⟩).2.2.1 (Or.inl rfl)⟩
